import Mathlib

/-!
# Verification of the lead-normalization and sheet-write path

Shallow embedding of `src/google_sheets.py` (functions `_get_required_env`,
`get_sheet`, `insert_lead`) and of the lead endpoint of `src/main.py`
(`LeadIn`, `create_lead`).

Python values that can appear in the inbound `data: dict` are modelled by
`PyVal` (JSON-ish scalars plus a list of strings, which is what the pydantic
model can put there).  A Python `dict` is modelled as an association list
with first-match lookup (`dictLookup`); `dict.get(k)` is `dictGet`
(absent key gives Python `None`), `dict.get(k, d)` is `dictGetD`.

`x or y` is Python's short-circuit `or` on truthiness (`pyOrv`);
`.strip()` is `pyStrip`, which raises `AttributeError` (modelled as
`Except.error`) on any non-string receiver, and on a string drops the
leading and trailing ASCII whitespace characters (`String.pyStripped`,
written as structural recursion on the character list so that it evaluates
inside the kernel; Python additionally strips some rare Unicode space
characters, which no claim depends on).

The external world (environment variables, the filesystem check, and the
gspread client) is a record of functions `World`; the observable actions of
`get_sheet`/`insert_lead` (credential loading, authorization, opening the
worksheet, appending a row) are recorded as a trace of `GsEvent`s so that
"no network call happened" is a provable statement.  Every `raise` in the
Python code becomes an `Except.error` carrying a `SheetError`; the code
raises plain `RuntimeError`s with distinct messages, and the constructors
of `SheetError` are named after the spec's taxonomy for the corresponding
distinct messages.
-/

/-- A Python value as it can occur in the inbound lead payload:
`None`, a string, an integer, or a list of strings. -/
inductive PyVal where
  | none : PyVal
  | str : String → PyVal
  | int : Int → PyVal
  | list : List String → PyVal
deriving DecidableEq, Repr

/-- Python truthiness for the values above: `None`, `""`, `0` and `[]`
are falsy, everything else is truthy. -/
def PyVal.truthy : PyVal → Bool
  | .none => false
  | .str s => if s = "" then false else true
  | .int n => if n = 0 then false else true
  | .list l => if l = [] then false else true

/-- Is the value a Python `str`? -/
def PyVal.isStr : PyVal → Bool
  | .str _ => true
  | _ => false

/-- A Python dict of lead fields, as an association list. -/
abbrev Data := List (String × PyVal)

/-- First-match association-list lookup; `Option.none` means the key is
absent from the dict. -/
def dictLookup : Data → String → Option PyVal
  | [], _ => Option.none
  | (k, v) :: rest, key => if k = key then some v else dictLookup rest key

/-- Python `data.get(key)`: the stored value, or `None` when absent. -/
def dictGet (d : Data) (k : String) : PyVal :=
  (dictLookup d k).getD PyVal.none

/-- Python `data.get(key, dflt)`: the stored value, or `dflt` when the key
is absent (an explicitly stored `None` is returned as `None`). -/
def dictGetD (d : Data) (k : String) (dflt : PyVal) : PyVal :=
  (dictLookup d k).getD dflt

/-- Python `a or b`: `a` when truthy, else `b`. -/
def pyOrv (a b : PyVal) : PyVal :=
  if a.truthy then a else b

/-- Python whitespace for `str.strip()` with no argument: space, tab,
newline, carriage return, vertical tab, form feed. -/
def isPySpace (c : Char) : Bool :=
  c == ' ' || c == '\t' || c == '\n' || c == '\r' || c == '\x0b' || c == '\x0c'

/-- Drop the longest prefix of characters satisfying `p`. -/
def dropLeading (p : Char → Bool) : List Char → List Char
  | [] => []
  | c :: cs => if p c then dropLeading p cs else c :: cs

/-- Python `s.strip()` on a string: remove leading and trailing
whitespace. -/
def String.pyStripped (s : String) : String :=
  String.mk (dropLeading isPySpace
    ((dropLeading isPySpace s.data.reverse).reverse))

/-- Python `v.strip()`: strips a string; raises `AttributeError` (modelled
as `Except.error`) when `v` is not a string. -/
def pyStrip : PyVal → Except String String
  | .str s => .ok s.pyStripped
  | _ => .error "AttributeError: strip called on a non-string value"

/-- The row literal built inside `insert_lead` (src/google_sheets.py lines
76-94), with the write-time clock reading passed in as `now`.  The cells
are evaluated in Python's left-to-right order; the three numeric-ish cells
(`days`, `travellers`, `rooms`) use `data.get(k, "")` and cannot raise,
while every other field is `(data.get(k) or dflt).strip()` and raises
exactly when the kept value is not a string. -/
def leadRow (now : String) (data : Data) : Except String (List PyVal) := do
  let name ← pyStrip (pyOrv (dictGet data "name") (.str ""))
  let phone ← pyStrip (pyOrv (dictGet data "phone") (.str ""))
  let email ← pyStrip (pyOrv (dictGet data "email") (.str ""))
  let state ← pyStrip (pyOrv (dictGet data "state") (.str ""))
  let start_date ← pyStrip (pyOrv (dictGet data "start_date") (.str ""))
  let end_date ← pyStrip (pyOrv (dictGet data "end_date") (.str ""))
  let hotel_category ← pyStrip (pyOrv (dictGet data "hotel_category") (.str ""))
  let guide ← pyStrip (pyOrv (dictGet data "guide") (.str ""))
  let vehicle ← pyStrip (pyOrv (dictGet data "vehicle") (.str ""))
  let package ← pyStrip (pyOrv (dictGet data "package") (.str ""))
  let source ← pyStrip (pyOrv (dictGet data "source") (.str "website"))
  let message ← pyStrip (pyOrv (dictGet data "message") (.str ""))
  let status ← pyStrip (pyOrv (dictGet data "status") (.str "New"))
  pure [PyVal.str now, .str name, .str phone, .str email, .str state,
        .str start_date, .str end_date,
        dictGetD data "days" (.str ""), dictGetD data "travellers" (.str ""),
        dictGetD data "rooms" (.str ""),
        .str hotel_category, .str guide, .str vehicle, .str package,
        .str source, .str message, .str status]

/-- String yielded by a successful `(v or dflt).strip()` (and `""` on the
impossible non-string branch): used to state the closed form of `leadRow`. -/
def stripOrEmpty : PyVal → String
  | .str s => s.pyStripped
  | _ => ""

/-- The string cell for field `k` with default `dflt`, assuming no raise. -/
def cellStr (data : Data) (k dflt : String) : PyVal :=
  .str (stripOrEmpty (pyOrv (dictGet data k) (.str dflt)))

/-- The closed form of the 17-cell row, defined whenever `leadRow` does not
raise. -/
def rowOf (now : String) (data : Data) : List PyVal :=
  [.str now, cellStr data "name" "", cellStr data "phone" "",
   cellStr data "email" "", cellStr data "state" "",
   cellStr data "start_date" "", cellStr data "end_date" "",
   dictGetD data "days" (.str ""), dictGetD data "travellers" (.str ""),
   dictGetD data "rooms" (.str ""),
   cellStr data "hotel_category" "", cellStr data "guide" "",
   cellStr data "vehicle" "", cellStr data "package" "",
   cellStr data "source" "website", cellStr data "message" "",
   cellStr data "status" "New"]

/-- A value is safe for a `(... or dflt).strip()` field: either falsy (the
default string is kept) or itself a string. -/
def safeForStr (v : PyVal) : Bool :=
  !v.truthy || v.isStr

/-- The thirteen keys read through `(data.get(k) or dflt).strip()`, in the
evaluation order of the row literal. -/
def strKeys : List String :=
  ["name", "phone", "email", "state", "start_date", "end_date",
   "hotel_category", "guide", "vehicle", "package", "source", "message",
   "status"]

/-- All sixteen keys `insert_lead` reads from the payload. -/
def keys16 : List String :=
  ["name", "phone", "email", "state", "start_date", "end_date", "days",
   "travellers", "rooms", "hotel_category", "guide", "vehicle", "package",
   "source", "message", "status"]

theorem except_bind_ok {α β : Type} (a : α) (f : α → Except String β) :
    (Except.ok a >>= f) = f a := rfl

theorem bind_ok_elim {α β : Type} {e : Except String α}
    {f : α → Except String β} {b : β} (h : (e >>= f) = .ok b) :
    ∃ a, e = .ok a ∧ f a = .ok b := by
  cases e with
  | ok a => exact ⟨a, rfl, h⟩
  | error msg => cases h

theorem pyStrip_ok_imp {v : PyVal} {s : String} (h : pyStrip v = .ok s) :
    s = stripOrEmpty v := by
  cases v with
  | str t => injection h with h2; exact h2.symm
  | none => exact Except.noConfusion h
  | int n => exact Except.noConfusion h
  | list l => exact Except.noConfusion h

theorem pyStrip_safe (v : PyVal) (d : String) (h : safeForStr v = true) :
    pyStrip (pyOrv v (.str d)) = .ok (stripOrEmpty (pyOrv v (.str d))) := by
  cases v with
  | none => rfl
  | str s =>
      by_cases hs : s = "" <;> simp [pyOrv, PyVal.truthy, hs, pyStrip, stripOrEmpty]
  | int n =>
      have hn : n = 0 := by
        by_contra hn
        simp [safeForStr, PyVal.truthy, PyVal.isStr, hn] at h
      simp [pyOrv, PyVal.truthy, hn, pyStrip, stripOrEmpty]
  | list l =>
      have hl : l = [] := by
        by_contra hl
        simp [safeForStr, PyVal.truthy, PyVal.isStr, hl] at h
      simp [pyOrv, PyVal.truthy, hl, pyStrip, stripOrEmpty]

theorem leadRow_safe (now : String) (data : Data)
    (h : ∀ k ∈ strKeys, safeForStr (dictGet data k) = true) :
    leadRow now data = .ok (rowOf now data) := by
  have h1 := pyStrip_safe (dictGet data "name") "" (h "name" (by simp [strKeys]))
  have h2 := pyStrip_safe (dictGet data "phone") "" (h "phone" (by simp [strKeys]))
  have h3 := pyStrip_safe (dictGet data "email") "" (h "email" (by simp [strKeys]))
  have h4 := pyStrip_safe (dictGet data "state") "" (h "state" (by simp [strKeys]))
  have h5 := pyStrip_safe (dictGet data "start_date") "" (h "start_date" (by simp [strKeys]))
  have h6 := pyStrip_safe (dictGet data "end_date") "" (h "end_date" (by simp [strKeys]))
  have h7 := pyStrip_safe (dictGet data "hotel_category") "" (h "hotel_category" (by simp [strKeys]))
  have h8 := pyStrip_safe (dictGet data "guide") "" (h "guide" (by simp [strKeys]))
  have h9 := pyStrip_safe (dictGet data "vehicle") "" (h "vehicle" (by simp [strKeys]))
  have h10 := pyStrip_safe (dictGet data "package") "" (h "package" (by simp [strKeys]))
  have h11 := pyStrip_safe (dictGet data "source") "website" (h "source" (by simp [strKeys]))
  have h12 := pyStrip_safe (dictGet data "message") "" (h "message" (by simp [strKeys]))
  have h13 := pyStrip_safe (dictGet data "status") "New" (h "status" (by simp [strKeys]))
  unfold leadRow rowOf cellStr
  rw [h1, except_bind_ok, h2, except_bind_ok, h3, except_bind_ok,
      h4, except_bind_ok, h5, except_bind_ok, h6, except_bind_ok,
      h7, except_bind_ok, h8, except_bind_ok, h9, except_bind_ok,
      h10, except_bind_ok, h11, except_bind_ok, h12, except_bind_ok,
      h13, except_bind_ok]
  rfl

theorem leadRow_ok_imp {now : String} {data : Data} {row : List PyVal}
    (h : leadRow now data = .ok row) : row = rowOf now data := by
  unfold leadRow at h
  obtain ⟨name, e1, h⟩ := bind_ok_elim h
  obtain ⟨phone, e2, h⟩ := bind_ok_elim h
  obtain ⟨email, e3, h⟩ := bind_ok_elim h
  obtain ⟨state, e4, h⟩ := bind_ok_elim h
  obtain ⟨start_date, e5, h⟩ := bind_ok_elim h
  obtain ⟨end_date, e6, h⟩ := bind_ok_elim h
  obtain ⟨hotel_category, e7, h⟩ := bind_ok_elim h
  obtain ⟨guide, e8, h⟩ := bind_ok_elim h
  obtain ⟨vehicle, e9, h⟩ := bind_ok_elim h
  obtain ⟨package, e10, h⟩ := bind_ok_elim h
  obtain ⟨source, e11, h⟩ := bind_ok_elim h
  obtain ⟨message, e12, h⟩ := bind_ok_elim h
  obtain ⟨status, e13, h⟩ := bind_ok_elim h
  have hrow : row = [PyVal.str now, .str name, .str phone, .str email,
      .str state, .str start_date, .str end_date,
      dictGetD data "days" (.str ""), dictGetD data "travellers" (.str ""),
      dictGetD data "rooms" (.str ""),
      .str hotel_category, .str guide, .str vehicle, .str package,
      .str source, .str message, .str status] := by
    cases h; rfl
  rw [hrow, pyStrip_ok_imp e1, pyStrip_ok_imp e2, pyStrip_ok_imp e3,
      pyStrip_ok_imp e4, pyStrip_ok_imp e5, pyStrip_ok_imp e6,
      pyStrip_ok_imp e7, pyStrip_ok_imp e8, pyStrip_ok_imp e9,
      pyStrip_ok_imp e10, pyStrip_ok_imp e11, pyStrip_ok_imp e12,
      pyStrip_ok_imp e13]
  rfl

theorem leadRow_congr (now : String) (d1 d2 : Data)
    (h : ∀ k ∈ keys16, dictLookup d1 k = dictLookup d2 k) :
    leadRow now d1 = leadRow now d2 := by
  have e1 := h "name" (by simp [keys16])
  have e2 := h "phone" (by simp [keys16])
  have e3 := h "email" (by simp [keys16])
  have e4 := h "state" (by simp [keys16])
  have e5 := h "start_date" (by simp [keys16])
  have e6 := h "end_date" (by simp [keys16])
  have e7 := h "days" (by simp [keys16])
  have e8 := h "travellers" (by simp [keys16])
  have e9 := h "rooms" (by simp [keys16])
  have e10 := h "hotel_category" (by simp [keys16])
  have e11 := h "guide" (by simp [keys16])
  have e12 := h "vehicle" (by simp [keys16])
  have e13 := h "package" (by simp [keys16])
  have e14 := h "source" (by simp [keys16])
  have e15 := h "message" (by simp [keys16])
  have e16 := h "status" (by simp [keys16])
  unfold leadRow dictGet dictGetD
  rw [e1, e2, e3, e4, e5, e6, e7, e8, e9, e10, e11, e12, e13, e14, e15, e16]

/-- Classified errors of the write path.  In the Python code every failure
is a `RuntimeError` with a distinct message shape; each constructor below
corresponds to one of those shapes, named after the taxonomy of the design
document (ConfigurationError, SinkUnavailableError, WriteError), plus
`pyError` for an uncaught Python exception escaping the row construction. -/
inductive SheetError where
  /-- `RuntimeError("Missing environment variable: ...")` from
  `_get_required_env`. -/
  | configMissingEnv (key : String)
  /-- `RuntimeError("Google credentials file not found...")` from
  `get_sheet`, raised before any credential loading. -/
  | configCredsFileNotFound (given resolved : String)
  /-- `RuntimeError("Failed to open Google Sheet tab...")` wrapping the
  repr of the underlying exception (auth rejected, sheet id not found, or
  worksheet/tab not found). -/
  | sinkUnavailable (sheetId tab cause : String)
  /-- `RuntimeError("Failed to append row...")` wrapping the repr of the
  underlying exception from `append_row`. -/
  | writeError (cause : String)
  /-- An exception raised while building the row itself (for example
  `AttributeError` from `.strip()` on a non-string) propagates uncaught. -/
  | pyError (msg : String)
deriving DecidableEq, Repr

/-- Is the error one of the configuration-stage failures? -/
def SheetError.isConfigurationError : SheetError → Bool
  | .configMissingEnv _ => true
  | .configCredsFileNotFound _ _ => true
  | _ => false

/-- Is the error the append-stage failure? -/
def SheetError.isWriteError : SheetError → Bool
  | .writeError _ => true
  | _ => false

/-- Is the error the open-sink-stage failure? -/
def SheetError.isSinkUnavailableError : SheetError → Bool
  | .sinkUnavailable _ _ _ => true
  | _ => false

/-- The underlying cause kept inside a wrapping error, when there is one. -/
def SheetError.wrappedCause : SheetError → Option String
  | .sinkUnavailable _ _ c => some c
  | .writeError c => some c
  | _ => Option.none

/-- Observable external actions of the write path, recorded in order. -/
inductive GsEvent where
  /-- `Credentials.from_service_account_file(path, scopes=SCOPES)`. -/
  | loadCredentials (path : String)
  /-- `gspread.authorize(creds)`. -/
  | authorize
  /-- `client.open_by_key(sheet_id).worksheet(sheet_tab)` — the network
  interaction that authenticates and resolves the sheet and tab. -/
  | openSheet (sheetId tab : String)
  /-- `ws.append_row(row, value_input_option=...)`. -/
  | appendRow (row : List PyVal) (valueInputOpt : String)
deriving DecidableEq, Repr

/-- Does the event record an append attempt? -/
def isAppendEvent : GsEvent → Bool
  | .appendRow _ _ => true
  | _ => false

/-- The worksheet handle returned by gspread: its only capability used by
this code is `append_row(row, value_input_option)`, whose outcome (success
or the repr of the raised exception) the environment determines. -/
structure Worksheet where
  append_row : List PyVal → String → Except String Unit

/-- The ambient world `google_sheets.py` interacts with: `os.getenv`,
`os.path.exists`, `os.path.isabs`, the directory of the module file, and
the gspread client.  `openWorksheet id tab` bundles
`gspread.authorize(...)` followed by `open_by_key(id).worksheet(tab)`:
gspread authenticates lazily, so an authentication failure also surfaces
there, inside the try block that wraps it. -/
structure World where
  getenv : String → Option String
  fileExists : String → Bool
  isAbs : String → Bool
  baseDir : String
  openWorksheet : String → String → Except String Worksheet

/-- `os.path.join(a, b)` for a relative `b`. -/
def joinPath (a b : String) : String := a ++ "/" ++ b

/-- Credentials-path resolution of src/google_sheets.py line 36: keep an
absolute path, else join it to the directory of the module file. -/
def resolve_creds_path (w : World) (p : String) : String :=
  if w.isAbs p then p else joinPath w.baseDir p

/-- `_get_required_env` (src/google_sheets.py lines 14-18): raises
`RuntimeError` when the variable is unset, empty, or whitespace-only, and
returns the stripped value otherwise. -/
def _get_required_env (w : World) (key : String) : Except SheetError String :=
  match w.getenv key with
  | Option.none => .error (.configMissingEnv key)
  | some v => if v.pyStripped = "" then .error (.configMissingEnv key) else .ok v.pyStripped

/-- `get_sheet` (src/google_sheets.py lines 21-61): reads the three
required environment variables, resolves the credentials path, checks the
file exists, then loads credentials, authorizes and opens the worksheet,
wrapping any exception of the open step as the sink-unavailable
`RuntimeError`.  Returns the outcome together with the trace of external
actions performed. -/
def get_sheet (w : World) : Except SheetError Worksheet × List GsEvent :=
  match _get_required_env w "GOOGLE_APPLICATION_CREDENTIALS" with
  | .error e => (.error e, [])
  | .ok creds_path =>
    match _get_required_env w "GOOGLE_SHEET_ID" with
    | .error e => (.error e, [])
    | .ok sheet_id =>
      match _get_required_env w "GOOGLE_SHEET_TAB" with
      | .error e => (.error e, [])
      | .ok sheet_tab =>
        if w.fileExists (resolve_creds_path w creds_path) then
          match w.openWorksheet sheet_id sheet_tab with
          | .ok ws =>
              (.ok ws,
               [.loadCredentials (resolve_creds_path w creds_path),
                .authorize, .openSheet sheet_id sheet_tab])
          | .error cause =>
              (.error (.sinkUnavailable sheet_id sheet_tab cause),
               [.loadCredentials (resolve_creds_path w creds_path),
                .authorize, .openSheet sheet_id sheet_tab])
        else
          (.error (.configCredsFileNotFound creds_path
                     (resolve_creds_path w creds_path)), [])

/-- `insert_lead` (src/google_sheets.py lines 64-100): opens the sheet,
builds the 17-cell row with the write-time clock reading `now`, and
appends it with `value_input_option="USER_ENTERED"`, wrapping an append
failure as the write-error `RuntimeError`.  Returns the outcome together
with the trace of external actions performed. -/
def insert_lead (w : World) (now : String) (data : Data) :
    Except SheetError Unit × List GsEvent :=
  match get_sheet w with
  | (.error e, tr) => (.error e, tr)
  | (.ok ws, tr) =>
    match leadRow now data with
    | .error msg => (.error (.pyError msg), tr)
    | .ok row =>
      match ws.append_row row "USER_ENTERED" with
      | .ok _ => (.ok (), tr ++ [.appendRow row "USER_ENTERED"])
      | .error cause =>
          (.error (.writeError cause), tr ++ [.appendRow row "USER_ENTERED"])

/-- The pydantic request model `LeadIn` of `src/main.py` (lines 41-55):
after validation every string field holds a `str` and every count field an
`int`; `subDestinations` is a list of strings. -/
structure LeadIn where
  source : String
  name : String
  email : String
  phone : String
  destination : String
  startDate : String
  endDate : String
  days : Int
  travellers : Int
  rooms : Int
  hotelClass : String
  guide : String
  vehicle : String
  subDestinations : List String

/-- `lead.dict()`: the validated payload as the Python dict handed to
`insert_lead`, carrying exactly the declared keys. -/
def LeadIn.dict (l : LeadIn) : Data :=
  [("source", .str l.source), ("name", .str l.name),
   ("email", .str l.email), ("phone", .str l.phone),
   ("destination", .str l.destination), ("startDate", .str l.startDate),
   ("endDate", .str l.endDate), ("days", .int l.days),
   ("travellers", .int l.travellers), ("rooms", .int l.rooms),
   ("hotelClass", .str l.hotelClass), ("guide", .str l.guide),
   ("vehicle", .str l.vehicle), ("subDestinations", .list l.subDestinations)]

/-- The `/api/leads` handler `create_lead` (src/main.py lines 57-64) as far
as the write path is concerned: it calls `insert_lead(lead.dict())`; the
surrounding try/except only converts a raised error into an HTTP 500
response and does not alter what was appended. -/
def create_lead (w : World) (now : String) (l : LeadIn) :
    Except SheetError Unit × List GsEvent :=
  insert_lead w now (LeadIn.dict l)

/-- Concrete worlds used to witness the theorems below. -/
def baseEnv : String → Option String
  | "GOOGLE_APPLICATION_CREDENTIALS" => some "credentials/google-sheets.json"
  | "GOOGLE_SHEET_ID" => some "sheet-id-1"
  | "GOOGLE_SHEET_TAB" => some "Sheet1"
  | _ => Option.none

/-- A worksheet whose append always succeeds. -/
def okWs : Worksheet := ⟨fun _ _ => .ok ()⟩

/-- A worksheet whose append always fails with a transport error. -/
def failWs : Worksheet := ⟨fun _ _ => .error "APIError 503 backendError"⟩

/-- Fully working environment and sink. -/
def okWorld : World :=
  ⟨baseEnv, fun _ => true, fun _ => true, "/app", fun _ _ => .ok okWs⟩

/-- Working resolution, failing append. -/
def appendFailWorld : World :=
  ⟨baseEnv, fun _ => true, fun _ => true, "/app", fun _ _ => .ok failWs⟩

/-- Authentication/resolution failure at the open step. -/
def authFailWorld : World :=
  ⟨baseEnv, fun _ => true, fun _ => true, "/app",
   fun _ _ => .error "PermissionError 403"⟩

/-- No environment variables set at all. -/
def noEnvWorld : World :=
  ⟨fun _ => Option.none, fun _ => true, fun _ => true, "/app",
   fun _ _ => .ok okWs⟩

/-- The env variable is unset, or set to a blank string. -/
def envMissing (w : World) (k : String) : Bool :=
  match w.getenv k with
  | Option.none => true
  | some v => if v.pyStripped = "" then true else false

theorem envMissing_true_iff {w : World} {k : String} :
    envMissing w k = true ↔
      (w.getenv k = Option.none ∨
        ∃ v, w.getenv k = some v ∧ v.pyStripped = "") := by
  unfold envMissing
  cases hg : w.getenv k with
  | none => simp
  | some v => split <;> simp_all

theorem envMissing_false_iff {w : World} {k : String} :
    envMissing w k = false ↔
      ∃ v, w.getenv k = some v ∧ v.pyStripped ≠ "" := by
  unfold envMissing
  cases hg : w.getenv k with
  | none => simp
  | some v => split <;> simp_all

theorem env_err {w : World} {k : String} (h : envMissing w k = true) :
    _get_required_env w k = .error (.configMissingEnv k) := by
  rcases envMissing_true_iff.mp h with hg | ⟨v, hg, ht⟩ <;>
    unfold _get_required_env <;> rw [hg]
  simp [ht]

theorem env_ok {w : World} {k : String} (h : envMissing w k = false) :
    _get_required_env w k =
      .ok (((w.getenv k).getD "").pyStripped) := by
  rcases envMissing_false_iff.mp h with ⟨v, hg, ht⟩
  unfold _get_required_env
  rw [hg]
  simp [ht]

theorem get_sheet_trace_shape (w : World) :
    (get_sheet w).2 = [] ∨
      ∃ p i t, (get_sheet w).2 =
        [GsEvent.loadCredentials p, GsEvent.authorize,
         GsEvent.openSheet i t] := by
  unfold get_sheet
  split
  · left; rfl
  · split
    · left; rfl
    · split
      · left; rfl
      · split
        · split
          · right; exact ⟨_, _, _, rfl⟩
          · right; exact ⟨_, _, _, rfl⟩
        · left; rfl

theorem get_sheet_no_append (w : World) :
    ∀ e ∈ (get_sheet w).2, isAppendEvent e = false := by
  intro e he
  rcases get_sheet_trace_shape w with h | ⟨p, i, t, h⟩ <;> rw [h] at he
  · cases he
  · simp only [List.mem_cons, List.not_mem_nil, or_false] at he
    rcases he with rfl | rfl | rfl <;> rfl

theorem insert_lead_append_mem {w : World} {now : String} {data : Data}
    {r : List PyVal} {opt : String}
    (hmem : GsEvent.appendRow r opt ∈ (insert_lead w now data).2) :
    leadRow now data = .ok r ∧ opt = "USER_ENTERED" := by
  have habs : GsEvent.appendRow r opt ∉ (get_sheet w).2 := by
    intro hc
    exact absurd (get_sheet_no_append w _ hc) (by simp [isAppendEvent])
  unfold insert_lead at hmem
  cases hgs : get_sheet w with
  | mk res tr =>
    have htr : (get_sheet w).2 = tr := by rw [hgs]
    rw [hgs] at hmem
    cases res with
    | error e =>
        exact absurd (htr ▸ hmem) habs
    | ok ws =>
        cases hlr : leadRow now data with
        | error msg =>
            simp only [hlr] at hmem
            exact absurd (htr ▸ hmem) habs
        | ok row =>
            simp only [hlr] at hmem
            have hmem2 : GsEvent.appendRow r opt ∈
                tr ++ [GsEvent.appendRow row "USER_ENTERED"] := by
              cases happ : ws.append_row row "USER_ENTERED" with
              | ok u => rw [happ] at hmem; exact hmem
              | error cause => rw [happ] at hmem; exact hmem
            rw [List.mem_append] at hmem2
            rcases hmem2 with h | h
            · exact absurd (htr ▸ h) habs
            · rw [List.mem_singleton] at h
              injection h with h1 h2
              subst h1; subst h2
              exact ⟨rfl, rfl⟩

theorem insert_lead_of_sheet_err {w : World} {now : String} {data : Data}
    {e : SheetError} {tr : List GsEvent}
    (hgs : get_sheet w = (.error e, tr)) :
    insert_lead w now data = (.error e, tr) := by
  unfold insert_lead
  rw [hgs]

theorem insert_lead_of_append_err {w : World} {now : String} {data : Data}
    {ws : Worksheet} {tr : List GsEvent} {row : List PyVal} {cause : String}
    (hgs : get_sheet w = (.ok ws, tr))
    (hrow : leadRow now data = .ok row)
    (happ : ws.append_row row "USER_ENTERED" = .error cause) :
    insert_lead w now data =
      (.error (.writeError cause),
       tr ++ [.appendRow row "USER_ENTERED"]) := by
  unfold insert_lead
  rw [hgs]
  simp only [hrow, happ]

theorem get_sheet_of_env1 {w : World}
    (h : envMissing w "GOOGLE_APPLICATION_CREDENTIALS" = true) :
    get_sheet w =
      (.error (.configMissingEnv "GOOGLE_APPLICATION_CREDENTIALS"), []) := by
  unfold get_sheet
  rw [env_err h]

theorem get_sheet_of_env2 {w : World}
    (h1 : envMissing w "GOOGLE_APPLICATION_CREDENTIALS" = false)
    (h : envMissing w "GOOGLE_SHEET_ID" = true) :
    get_sheet w = (.error (.configMissingEnv "GOOGLE_SHEET_ID"), []) := by
  unfold get_sheet
  rw [env_ok h1]
  simp only [env_err h]

theorem get_sheet_of_env3 {w : World}
    (h1 : envMissing w "GOOGLE_APPLICATION_CREDENTIALS" = false)
    (h2 : envMissing w "GOOGLE_SHEET_ID" = false)
    (h : envMissing w "GOOGLE_SHEET_TAB" = true) :
    get_sheet w = (.error (.configMissingEnv "GOOGLE_SHEET_TAB"), []) := by
  unfold get_sheet
  rw [env_ok h1]
  simp only [env_ok h2, env_err h]

theorem get_sheet_of_open_ok {w : World} {p i t : String} {ws : Worksheet}
    (h1 : _get_required_env w "GOOGLE_APPLICATION_CREDENTIALS" = .ok p)
    (h2 : _get_required_env w "GOOGLE_SHEET_ID" = .ok i)
    (h3 : _get_required_env w "GOOGLE_SHEET_TAB" = .ok t)
    (hfile : w.fileExists (resolve_creds_path w p) = true)
    (hopen : w.openWorksheet i t = .ok ws) :
    get_sheet w =
      (.ok ws,
       [.loadCredentials (resolve_creds_path w p), .authorize,
        .openSheet i t]) := by
  unfold get_sheet
  rw [h1]
  simp only [h2, h3, hfile, if_true, hopen]

theorem get_sheet_of_open_err {w : World} {p i t cause : String}
    (h1 : _get_required_env w "GOOGLE_APPLICATION_CREDENTIALS" = .ok p)
    (h2 : _get_required_env w "GOOGLE_SHEET_ID" = .ok i)
    (h3 : _get_required_env w "GOOGLE_SHEET_TAB" = .ok t)
    (hfile : w.fileExists (resolve_creds_path w p) = true)
    (hopen : w.openWorksheet i t = .error cause) :
    get_sheet w =
      (.error (.sinkUnavailable i t cause),
       [.loadCredentials (resolve_creds_path w p), .authorize,
        .openSheet i t]) := by
  unfold get_sheet
  rw [h1]
  simp only [h2, h3, hfile, if_true, hopen]

theorem dictLookup_cons_ne {k0 : String} {v : PyVal} {d : Data} {k : String}
    (h : ¬ (k0 = k)) : dictLookup ((k0, v) :: d) k = dictLookup d k := by
  show (if k0 = k then some v else dictLookup d k) = dictLookup d k
  rw [if_neg h]

theorem extraKey_congr (k0 : String) (hk0 : k0 ∉ keys16) (v : PyVal)
    (d : Data) :
    ∀ k ∈ keys16, dictLookup ((k0, v) :: d) k = dictLookup d k := by
  intro k hk
  apply dictLookup_cons_ne
  intro he
  subst he
  exact hk0 hk

theorem insert_lead_congr (w : World) (now : String) (d1 d2 : Data)
    (h : ∀ k ∈ keys16, dictLookup d1 k = dictLookup d2 k) :
    insert_lead w now d1 = insert_lead w now d2 := by
  unfold insert_lead
  rw [leadRow_congr now d1 d2 h]

theorem cellStr_of_falsy {data : Data} {k : String} (dflt : String)
    (h : (dictGet data k).truthy = false) :
    cellStr data k dflt = PyVal.str dflt.pyStripped := by
  unfold cellStr pyOrv
  rw [h]
  simp [stripOrEmpty]

theorem cellStr_of_str {data : Data} {k : String} (dflt : String)
    {s : String} (h : dictGet data k = PyVal.str s) (hs : s ≠ "") :
    cellStr data k dflt = PyVal.str s.pyStripped := by
  unfold cellStr pyOrv
  rw [h]
  simp [PyVal.truthy, hs, stripOrEmpty]

/-- C1: the claim says the normalization step of `insert_lead` never
raises, whatever the type of each present value.  Counterexample: a
payload whose `name` is the number `7` is truthy and not a string, so
`(data.get("name") or "").strip()` raises `AttributeError`; with a fully
working environment `insert_lead` propagates it after the sheet was
opened, and no row is produced. -/
theorem normalize_raises_on_numeric_name_cex :
    (leadRow "2025-06-01 10:00:00" [("name", PyVal.int 7)]).toOption
        = Option.none ∧
    insert_lead okWorld "2025-06-01 10:00:00" [("name", PyVal.int 7)] =
      (.error (.pyError "AttributeError: strip called on a non-string value"),
       [.loadCredentials "credentials/google-sheets.json", .authorize,
        .openSheet "sheet-id-1" "Sheet1"]) :=
  ⟨rfl, rfl⟩

/-- C1 (amended): the normalization step never raises and yields a full
17-cell row, provided each present value under a string-coerced key is a
string or falsy (absent keys, `None`, `0`, `""`, `[]`, and any value under
the numeric-ish keys `days`/`travellers`/`rooms` or under unread keys are
all safe); a truthy non-string under a string-coerced key raises. -/
theorem normalize_total_on_string_typed_fields (now : String) (data : Data)
    (h : ∀ k ∈ strKeys, safeForStr (dictGet data k) = true) :
    ∃ row, leadRow now data = .ok row ∧ row.length = 17 :=
  ⟨rowOf now data, leadRow_safe now data h, rfl⟩

/-- C1 witness: the safety hypothesis holds at a concrete mixed payload. -/
theorem normalize_total_on_string_typed_fields_witness :
    (∀ k ∈ strKeys,
        safeForStr (dictGet
          [("name", PyVal.str "Ana"), ("days", PyVal.int 5)] k) = true) ∧
    ∃ row, leadRow "2025-06-01 10:00:00"
        [("name", PyVal.str "Ana"), ("days", PyVal.int 5)] = .ok row ∧
      row.length = 17 :=
  ⟨by decide, normalize_total_on_string_typed_fields _ _ (by decide)⟩

/-- C2: the claim says a blank/absent phone falls back to the `mobile`
field.  Counterexample: with `phone` absent and `mobile="9999999999"` the
phone column of the produced row is `""`, not `"9999999999"` — the code
never reads `mobile`. -/
theorem phone_ignores_mobile_cex :
    (leadRow "t" [("mobile", PyVal.str "9999999999")]).toOption.map
        (fun r => r.get? 2) = some (some (PyVal.str "")) ∧
    PyVal.str "" ≠ PyVal.str "9999999999" :=
  ⟨rfl, by decide⟩

/-- C2 (amended): the phone column is derived from the `phone` key alone:
a `mobile` entry never influences the row, and when `phone` is absent or
blank the phone column is the empty string (so with both blank it is the
empty string, as the claim's last sentence says). -/
theorem phone_from_phone_field_only (now : String) (data : Data)
    (v : PyVal) (row : List PyVal)
    (hblank : dictGet data "phone" = PyVal.none ∨
      ∃ s, dictGet data "phone" = PyVal.str s ∧ s.pyStripped = "")
    (hrow : leadRow now data = .ok row) :
    leadRow now (("mobile", v) :: data) = .ok row ∧
    row.get? 2 = some (PyVal.str "") := by
  constructor
  · rw [← hrow]
    exact leadRow_congr now _ _ (extraKey_congr "mobile" (by decide) v data)
  · have hr := leadRow_ok_imp hrow
    subst hr
    show some (cellStr data "phone" "") = _
    rcases hblank with hb | ⟨s, hb, hs⟩
    · rw [cellStr_of_falsy "" (by rw [hb]; rfl)]
      rfl
    · by_cases hse : s = ""
      · subst hse
        rw [cellStr_of_falsy "" (by rw [hb]; rfl)]
        rfl
      · rw [cellStr_of_str "" hb hse, hs]

/-- C2 witness: concrete payload with `phone` absent and a non-blank
`mobile`. -/
theorem phone_from_phone_field_only_witness :
    (dictGet ([] : Data) "phone" = PyVal.none ∨
      ∃ s, dictGet ([] : Data) "phone" = PyVal.str s ∧ s.pyStripped = "") ∧
    leadRow "t" ([] : Data) = .ok (rowOf "t" []) ∧
    (leadRow "t" (("mobile", PyVal.str "9999999999") :: []) =
        .ok (rowOf "t" []) ∧
      (rowOf "t" []).get? 2 = some (PyVal.str "")) :=
  ⟨Or.inl rfl, rfl,
   phone_from_phone_field_only "t" [] (PyVal.str "9999999999")
     (rowOf "t" []) (Or.inl rfl) rfl⟩

/-- C3: the claim says a whitespace-only `source` yields `"website"`.
Counterexample: `source="  "` is truthy, so the code keeps it and strips
it, and the source column is `""` — neither `"website"` nor `"  "`. -/
theorem source_blank_not_defaulted_cex :
    (leadRow "t" [("source", PyVal.str "  ")]).toOption.map
        (fun r => r.get? 14) = some (some (PyVal.str "")) ∧
    PyVal.str "" ≠ PyVal.str "website" ∧ PyVal.str "" ≠ PyVal.str "  " :=
  ⟨rfl, by decide, by decide⟩

/-- C3 (amended): `source` defaults to `"website"` and `status` to `"New"`
exactly when the stored value is falsy (absent, `None`, `""`, `0`, `[]`);
a non-empty string — even one that is blank after stripping — is kept and
stripped, so `source="  "` yields `""`, not the default. -/
theorem source_status_default_on_falsy_only (now : String) (data : Data)
    (row : List PyVal) (hrow : leadRow now data = .ok row) :
    ((dictGet data "source").truthy = false →
        row.get? 14 = some (PyVal.str "website")) ∧
    (∀ s, dictGet data "source" = PyVal.str s → s ≠ "" →
        row.get? 14 = some (PyVal.str s.pyStripped)) ∧
    ((dictGet data "status").truthy = false →
        row.get? 16 = some (PyVal.str "New")) ∧
    (∀ s, dictGet data "status" = PyVal.str s → s ≠ "" →
        row.get? 16 = some (PyVal.str s.pyStripped)) := by
  have hr := leadRow_ok_imp hrow
  subst hr
  refine ⟨?_, ?_, ?_, ?_⟩
  · intro h
    show some (cellStr data "source" "website") = _
    rw [cellStr_of_falsy "website" h]
    rfl
  · intro s h hs
    show some (cellStr data "source" "website") = _
    rw [cellStr_of_str "website" h hs]
  · intro h
    show some (cellStr data "status" "New") = _
    rw [cellStr_of_falsy "New" h]
    rfl
  · intro s h hs
    show some (cellStr data "status" "New") = _
    rw [cellStr_of_str "New" h hs]

/-- C3 witness: the empty payload exercises the falsy branches. -/
theorem source_status_default_on_falsy_only_witness :
    leadRow "t" ([] : Data) = .ok (rowOf "t" []) ∧
    (((dictGet ([] : Data) "source").truthy = false →
        (rowOf "t" []).get? 14 = some (PyVal.str "website")) ∧
      (∀ s, dictGet ([] : Data) "source" = PyVal.str s → s ≠ "" →
        (rowOf "t" []).get? 14 = some (PyVal.str s.pyStripped)) ∧
      ((dictGet ([] : Data) "status").truthy = false →
        (rowOf "t" []).get? 16 = some (PyVal.str "New")) ∧
      (∀ s, dictGet ([] : Data) "status" = PyVal.str s → s ≠ "" →
        (rowOf "t" []).get? 16 = some (PyVal.str s.pyStripped))) :=
  ⟨rfl, source_status_default_on_falsy_only "t" [] (rowOf "t" []) rfl⟩

/-- C5: the claim says every one of the 17 columns is non-null.
Counterexample: `days` explicitly present as `None` passes through
`data.get("days", "")` unchanged, and the days column of the produced row
is the null marker. -/
theorem days_null_passes_through_cex :
    (leadRow "t" [("days", PyVal.none)]).toOption.map (fun r => r.get? 7)
      = some (some PyVal.none) := rfl

/-- C5 (amended): every string-coerced column always holds a string (so
missing and `None` become `""`); each numeric-ish column (`days`,
`travellers`, `rooms`) becomes `""` when the key is absent, but a present
value — including an explicit `None` — passes through unchanged, whether
number, string, or null. -/
theorem cells_present_except_explicit_null_numeric (now : String)
    (data : Data) (row : List PyVal) (hrow : leadRow now data = .ok row) :
    (∀ i ∈ ([0, 1, 2, 3, 4, 5, 6, 10, 11, 12, 13, 14, 15, 16] : List Nat),
        ∃ s, row.get? i = some (PyVal.str s)) ∧
    (dictLookup data "days" = Option.none →
        row.get? 7 = some (PyVal.str "")) ∧
    (dictLookup data "travellers" = Option.none →
        row.get? 8 = some (PyVal.str "")) ∧
    (dictLookup data "rooms" = Option.none →
        row.get? 9 = some (PyVal.str "")) ∧
    (∀ v, dictLookup data "days" = some v → row.get? 7 = some v) ∧
    (∀ v, dictLookup data "travellers" = some v → row.get? 8 = some v) ∧
    (∀ v, dictLookup data "rooms" = some v → row.get? 9 = some v) := by
  have hr := leadRow_ok_imp hrow
  subst hr
  refine ⟨?_, ?_, ?_, ?_, ?_, ?_, ?_⟩
  · intro i hi
    fin_cases hi <;> exact ⟨_, rfl⟩
  · intro h
    show some (dictGetD data "days" (.str "")) = _
    unfold dictGetD
    rw [h]
    rfl
  · intro h
    show some (dictGetD data "travellers" (.str "")) = _
    unfold dictGetD
    rw [h]
    rfl
  · intro h
    show some (dictGetD data "rooms" (.str "")) = _
    unfold dictGetD
    rw [h]
    rfl
  · intro v h
    show some (dictGetD data "days" (.str "")) = _
    unfold dictGetD
    rw [h]
    rfl
  · intro v h
    show some (dictGetD data "travellers" (.str "")) = _
    unfold dictGetD
    rw [h]
    rfl
  · intro v h
    show some (dictGetD data "rooms" (.str "")) = _
    unfold dictGetD
    rw [h]
    rfl

/-- C5 witness: the empty payload satisfies the row hypothesis. -/
theorem cells_present_except_explicit_null_numeric_witness :
    leadRow "t" ([] : Data) = .ok (rowOf "t" []) ∧
    ((∀ i ∈ ([0, 1, 2, 3, 4, 5, 6, 10, 11, 12, 13, 14, 15, 16] : List Nat),
        ∃ s, (rowOf "t" []).get? i = some (PyVal.str s)) ∧
      (dictLookup ([] : Data) "days" = Option.none →
        (rowOf "t" []).get? 7 = some (PyVal.str "")) ∧
      (dictLookup ([] : Data) "travellers" = Option.none →
        (rowOf "t" []).get? 8 = some (PyVal.str "")) ∧
      (dictLookup ([] : Data) "rooms" = Option.none →
        (rowOf "t" []).get? 9 = some (PyVal.str "")) ∧
      (∀ v, dictLookup ([] : Data) "days" = some v →
        (rowOf "t" []).get? 7 = some v) ∧
      (∀ v, dictLookup ([] : Data) "travellers" = some v →
        (rowOf "t" []).get? 8 = some v) ∧
      (∀ v, dictLookup ([] : Data) "rooms" = some v →
        (rowOf "t" []).get? 9 = some v)) :=
  ⟨rfl, cells_present_except_explicit_null_numeric "t" [] (rowOf "t" []) rfl⟩

/-- C4: every row handed to the sink has exactly 17 cells, its first cell
is the server-generated write-time timestamp, and a `timestamp` entry in
the request payload is ignored — `insert_lead` produces the identical
outcome and trace with or without it. -/
theorem appended_row_has_17_cells_and_generated_timestamp
    (w : World) (now : String) (data : Data) (v : PyVal)
    (r : List PyVal) (opt : String)
    (hmem : GsEvent.appendRow r opt ∈ (insert_lead w now data).2) :
    r.length = 17 ∧ r.head? = some (PyVal.str now) ∧
    insert_lead w now (("timestamp", v) :: data) =
      insert_lead w now data := by
  obtain ⟨hrow, _⟩ := insert_lead_append_mem hmem
  have hr := leadRow_ok_imp hrow
  subst hr
  exact ⟨rfl, rfl,
    insert_lead_congr w now _ _ (extraKey_congr "timestamp" (by decide) v data)⟩

/-- C4 witness: the working world appends the default row for the empty
payload, and a supplied `timestamp` entry changes nothing. -/
theorem appended_row_has_17_cells_and_generated_timestamp_witness :
    (GsEvent.appendRow (rowOf "t" []) "USER_ENTERED" ∈
        (insert_lead okWorld "t" []).2) ∧
    ((rowOf "t" []).length = 17 ∧
      (rowOf "t" []).head? = some (PyVal.str "t") ∧
      insert_lead okWorld "t" (("timestamp", PyVal.str "1999-01-01") :: []) =
        insert_lead okWorld "t" []) :=
  ⟨by decide,
   appended_row_has_17_cells_and_generated_timestamp okWorld "t" []
     (PyVal.str "1999-01-01") (rowOf "t" []) "USER_ENTERED" (by decide)⟩

/-- C6: when any of the three required configuration values is unset or
blank, `insert_lead` fails with the missing-configuration error and the
trace is empty — no credential loading, no authorization, and no call to
the sink happened. -/
theorem missing_config_fails_before_any_network
    (w : World) (now : String) (data : Data)
    (h : envMissing w "GOOGLE_APPLICATION_CREDENTIALS" = true ∨
         envMissing w "GOOGLE_SHEET_ID" = true ∨
         envMissing w "GOOGLE_SHEET_TAB" = true) :
    ∃ k, envMissing w k = true ∧
      insert_lead w now data = (.error (.configMissingEnv k), []) ∧
      (SheetError.configMissingEnv k).isConfigurationError = true := by
  by_cases h1 : envMissing w "GOOGLE_APPLICATION_CREDENTIALS" = true
  · exact ⟨_, h1, insert_lead_of_sheet_err (get_sheet_of_env1 h1), rfl⟩
  · rw [Bool.not_eq_true] at h1
    by_cases h2 : envMissing w "GOOGLE_SHEET_ID" = true
    · exact ⟨_, h2, insert_lead_of_sheet_err (get_sheet_of_env2 h1 h2), rfl⟩
    · rw [Bool.not_eq_true] at h2
      have h3 : envMissing w "GOOGLE_SHEET_TAB" = true := by
        rcases h with ha | hb | hc
        · rw [h1] at ha; cases ha
        · rw [h2] at hb; cases hb
        · exact hc
      exact ⟨_, h3, insert_lead_of_sheet_err (get_sheet_of_env3 h1 h2 h3), rfl⟩

/-- C6 witness: a world with no environment variables at all. -/
theorem missing_config_fails_before_any_network_witness :
    (envMissing noEnvWorld "GOOGLE_APPLICATION_CREDENTIALS" = true ∨
      envMissing noEnvWorld "GOOGLE_SHEET_ID" = true ∨
      envMissing noEnvWorld "GOOGLE_SHEET_TAB" = true) ∧
    ∃ k, envMissing noEnvWorld k = true ∧
      insert_lead noEnvWorld "t" [] = (.error (.configMissingEnv k), []) ∧
      (SheetError.configMissingEnv k).isConfigurationError = true :=
  ⟨Or.inl rfl,
   missing_config_fails_before_any_network noEnvWorld "t" [] (Or.inl rfl)⟩

/-- C7: when resolution succeeds but the append call fails, `insert_lead`
fails with the write error and the trace contains exactly one append
attempt — the failure surfaces immediately, with no retry. -/
theorem append_failure_write_error_single_attempt
    (w : World) (now : String) (data : Data) (ws : Worksheet)
    (tr : List GsEvent) (row : List PyVal) (cause : String)
    (hgs : get_sheet w = (.ok ws, tr))
    (hrow : leadRow now data = .ok row)
    (happ : ws.append_row row "USER_ENTERED" = .error cause) :
    insert_lead w now data =
      (.error (.writeError cause), tr ++ [.appendRow row "USER_ENTERED"]) ∧
    (insert_lead w now data).2.countP isAppendEvent = 1 := by
  have hres := insert_lead_of_append_err hgs hrow happ
  refine ⟨hres, ?_⟩
  rw [hres]
  show (tr ++ [GsEvent.appendRow row "USER_ENTERED"]).countP isAppendEvent = 1
  rw [List.countP_append]
  have h0 : tr.countP isAppendEvent = 0 := by
    rw [List.countP_eq_zero]
    intro e he
    have hne := get_sheet_no_append w e (by rw [hgs]; exact he)
    simp [hne]
  rw [h0]
  rfl

/-- C7 witness: a world whose worksheet rejects every append. -/
theorem append_failure_write_error_single_attempt_witness :
    get_sheet appendFailWorld =
      (.ok failWs,
       [.loadCredentials "credentials/google-sheets.json", .authorize,
        .openSheet "sheet-id-1" "Sheet1"]) ∧
    leadRow "t" ([] : Data) = .ok (rowOf "t" []) ∧
    failWs.append_row (rowOf "t" []) "USER_ENTERED" =
      .error "APIError 503 backendError" ∧
    (insert_lead appendFailWorld "t" [] =
        (.error (.writeError "APIError 503 backendError"),
         [.loadCredentials "credentials/google-sheets.json", .authorize,
          .openSheet "sheet-id-1" "Sheet1"] ++
           [.appendRow (rowOf "t" []) "USER_ENTERED"]) ∧
      (insert_lead appendFailWorld "t" []).2.countP isAppendEvent = 1) :=
  ⟨rfl, rfl, rfl,
   append_failure_write_error_single_attempt appendFailWorld "t" [] failWs
     _ (rowOf "t" []) "APIError 503 backendError" rfl rfl rfl⟩

/-- C8: when the environment is complete and the credentials file exists
but opening the worksheet fails (authentication rejected, sheet id not
resolving, or tab not found), `insert_lead` fails with the
sink-unavailable error, which wraps the underlying cause so it remains
inspectable and which is classified as neither a configuration error nor
a write error. -/
theorem open_failure_sink_unavailable_wraps_cause
    (w : World) (now : String) (data : Data) (p i t cause : String)
    (h1 : _get_required_env w "GOOGLE_APPLICATION_CREDENTIALS" = .ok p)
    (h2 : _get_required_env w "GOOGLE_SHEET_ID" = .ok i)
    (h3 : _get_required_env w "GOOGLE_SHEET_TAB" = .ok t)
    (hfile : w.fileExists (resolve_creds_path w p) = true)
    (hopen : w.openWorksheet i t = .error cause) :
    (insert_lead w now data).1 = .error (.sinkUnavailable i t cause) ∧
    (SheetError.sinkUnavailable i t cause).wrappedCause = some cause ∧
    (SheetError.sinkUnavailable i t cause).isSinkUnavailableError = true ∧
    (SheetError.sinkUnavailable i t cause).isConfigurationError = false ∧
    (SheetError.sinkUnavailable i t cause).isWriteError = false := by
  have hgs := get_sheet_of_open_err h1 h2 h3 hfile hopen
  refine ⟨?_, rfl, rfl, rfl, rfl⟩
  rw [insert_lead_of_sheet_err hgs]

/-- C8 witness: a world whose open call is rejected with a permission
error. -/
theorem open_failure_sink_unavailable_wraps_cause_witness :
    _get_required_env authFailWorld "GOOGLE_APPLICATION_CREDENTIALS" =
      .ok "credentials/google-sheets.json" ∧
    _get_required_env authFailWorld "GOOGLE_SHEET_ID" = .ok "sheet-id-1" ∧
    _get_required_env authFailWorld "GOOGLE_SHEET_TAB" = .ok "Sheet1" ∧
    authFailWorld.fileExists
      (resolve_creds_path authFailWorld "credentials/google-sheets.json") =
        true ∧
    authFailWorld.openWorksheet "sheet-id-1" "Sheet1" =
      .error "PermissionError 403" ∧
    ((insert_lead authFailWorld "t" []).1 =
        .error (.sinkUnavailable "sheet-id-1" "Sheet1"
          "PermissionError 403") ∧
      (SheetError.sinkUnavailable "sheet-id-1" "Sheet1"
          "PermissionError 403").wrappedCause = some "PermissionError 403" ∧
      (SheetError.sinkUnavailable "sheet-id-1" "Sheet1"
          "PermissionError 403").isSinkUnavailableError = true ∧
      (SheetError.sinkUnavailable "sheet-id-1" "Sheet1"
          "PermissionError 403").isConfigurationError = false ∧
      (SheetError.sinkUnavailable "sheet-id-1" "Sheet1"
          "PermissionError 403").isWriteError = false) :=
  ⟨rfl, rfl, rfl, rfl, rfl,
   open_failure_sink_unavailable_wraps_cause authFailWorld "t" []
     "credentials/google-sheets.json" "sheet-id-1" "Sheet1"
     "PermissionError 403" rfl rfl rfl rfl rfl⟩

/-- C9: any row appended on behalf of the `/api/leads` endpoint has empty
`state`, `start_date`, `end_date` and `hotel_category` columns, whatever
the client sent — the validated payload carries `destination`,
`startDate`, `endDate`, `hotelClass`, while `insert_lead` reads
`state`, `start_date`, `end_date`, `hotel_category`. -/
theorem endpoint_state_dates_hotel_always_empty
    (w : World) (now : String) (l : LeadIn) (r : List PyVal) (opt : String)
    (hmem : GsEvent.appendRow r opt ∈ (create_lead w now l).2) :
    r.get? 4 = some (PyVal.str "") ∧ r.get? 5 = some (PyVal.str "") ∧
    r.get? 6 = some (PyVal.str "") ∧ r.get? 10 = some (PyVal.str "") := by
  obtain ⟨hrow, _⟩ := insert_lead_append_mem hmem
  have hr := leadRow_ok_imp hrow
  subst hr
  exact ⟨rfl, rfl, rfl, rfl⟩

/-- A concrete validated payload, as the endpoint would build it. -/
def sampleLead : LeadIn :=
  ⟨"website", "Ravi", "ravi@example.com", "9999999999", "Manali",
   "2025-06-01", "2025-06-05", 5, 2, 1, "3 Star", "With Guide", "SUV",
   ["Solang"]⟩

/-- C9 witness: the sample payload is appended with those four columns
empty. -/
theorem endpoint_state_dates_hotel_always_empty_witness :
    (GsEvent.appendRow (rowOf "t" sampleLead.dict) "USER_ENTERED" ∈
        (create_lead okWorld "t" sampleLead).2) ∧
    ((rowOf "t" sampleLead.dict).get? 4 = some (PyVal.str "") ∧
      (rowOf "t" sampleLead.dict).get? 5 = some (PyVal.str "") ∧
      (rowOf "t" sampleLead.dict).get? 6 = some (PyVal.str "") ∧
      (rowOf "t" sampleLead.dict).get? 10 = some (PyVal.str "")) :=
  ⟨by decide,
   endpoint_state_dates_hotel_always_empty okWorld "t" sampleLead
     (rowOf "t" sampleLead.dict) "USER_ENTERED" (by decide)⟩

/-- C10: two payloads that agree on the sixteen keys `insert_lead` reads
produce the same row and, in the same world with the same clock reading,
the identical `insert_lead` outcome and trace — entries under any other
keys (`mobile`, `destination`, `subDestinations`, `timestamp`, ...) have
no influence. -/
theorem row_depends_only_on_sixteen_keys
    (w : World) (now : String) (d1 d2 : Data)
    (h : ∀ k ∈ keys16, dictLookup d1 k = dictLookup d2 k) :
    leadRow now d1 = leadRow now d2 ∧
    insert_lead w now d1 = insert_lead w now d2 :=
  ⟨leadRow_congr now d1 d2 h, insert_lead_congr w now d1 d2 h⟩

/-- C10 witness: two payloads that differ only in unread keys. -/
theorem row_depends_only_on_sixteen_keys_witness :
    (∀ k ∈ keys16,
        dictLookup [("name", PyVal.str "Ravi"),
                    ("mobile", PyVal.str "9999999999"),
                    ("destination", PyVal.str "Manali")] k =
        dictLookup [("timestamp", PyVal.str "1999-01-01"),
                    ("name", PyVal.str "Ravi"),
                    ("subDestinations", PyVal.list ["Solang"])] k) ∧
    (leadRow "t" [("name", PyVal.str "Ravi"),
                  ("mobile", PyVal.str "9999999999"),
                  ("destination", PyVal.str "Manali")] =
        leadRow "t" [("timestamp", PyVal.str "1999-01-01"),
                     ("name", PyVal.str "Ravi"),
                     ("subDestinations", PyVal.list ["Solang"])] ∧
      insert_lead okWorld "t" [("name", PyVal.str "Ravi"),
                               ("mobile", PyVal.str "9999999999"),
                               ("destination", PyVal.str "Manali")] =
        insert_lead okWorld "t" [("timestamp", PyVal.str "1999-01-01"),
                                 ("name", PyVal.str "Ravi"),
                                 ("subDestinations", PyVal.list ["Solang"])]) :=
  ⟨by decide, row_depends_only_on_sixteen_keys okWorld "t" _ _ (by decide)⟩
